import Mathlib

/-!
Verification of the universal ingestion endpoint of the harbourmaster
repository (source: src/unnamed/part_010, `/api/ingest_universal.js`).

The handler accepts a transcript, optionally strips a leading tier
directive, classifies the transcript to one of four tables (strict prefix,
keyword co-occurrence, or a GPT fallback gated at confidence 0.90), cleans
it through an external collaborator, validates the cleaned JSON, applies
tier guardrails for Q&A records, resolves the harbour foreign key,
transforms to database columns and inserts, then optionally triggers an
embedding update.

This file shallowly embeds that handler.  External collaborators (the GPT
classifier, the cleaner, the harbour registry, the primary store) are
modelled as oracle inputs: the handler is a pure function from the request
and the oracle replies to a response plus a record of the side effects it
performed (error-log appends, review-queue inserts, table inserts,
embedding updates).  JavaScript values are modelled by `JsVal`; JavaScript
number strings and `parseFloat` are modelled over `ℚ`, with `Option ℚ`
standing for a JS number that may be NaN (`none` = NaN).
-/

/-- Model of a JavaScript value as it flows through the handler.
`undefined` stands for JavaScript `undefined` (e.g. a missing object field). -/
inductive JsVal where
  | undefined : JsVal
  | null : JsVal
  | bool : Bool → JsVal
  | num : ℚ → JsVal
  | str : String → JsVal
  | arr : List JsVal → JsVal
  | obj : List (String × JsVal) → JsVal
deriving Repr

/-- First binding of a key in a JS object literal (post-JSON.parse objects
have unique keys). -/
def lookupField : List (String × JsVal) → String → Option JsVal
  | [], _ => none
  | (k, v) :: rest, key => if k = key then some v else lookupField rest key

/-- JavaScript member access `v[k]`: `undefined` when the key is missing or
the value is not an object (the handler only indexes objects or uses `?.`). -/
def jsGet : JsVal → String → JsVal
  | .obj fs, k => match lookupField fs k with
    | some v => v
    | none => .undefined
  | _, _ => .undefined

/-- Whether a JS object value has the key at all (vs. holding `undefined`). -/
def objHasKey : JsVal → String → Bool
  | .obj fs, k => (lookupField fs k).isSome
  | _, _ => false

def setField : List (String × JsVal) → String → JsVal → List (String × JsVal)
  | [], k, v => [(k, v)]
  | (k0, v0) :: rest, k, v =>
      if k0 = k then (k, v) :: rest else (k0, v0) :: setField rest k v

/-- JavaScript property assignment `o[k] = v` on an object value. -/
def objSet : JsVal → String → JsVal → JsVal
  | .obj fs, k, v => .obj (setField fs k v)
  | w, _, _ => w

/-- JavaScript truthiness: `undefined`, `null`, `false`, `0`, `""` are falsy;
all objects and arrays (even empty ones) are truthy. -/
def truthy : JsVal → Bool
  | .undefined => false
  | .null => false
  | .bool b => b
  | .num q => decide (q ≠ 0)
  | .str s => decide (s ≠ "")
  | .arr _ => true
  | .obj _ => true

/-- JavaScript `a || b`. -/
def jsOr (a b : JsVal) : JsVal := if truthy a then a else b

/-- The JS `\s` character class (the whitespace and line-terminator
characters; the common ASCII and Unicode members). -/
def jsWhitespace (c : Char) : Bool :=
  (0x9 ≤ c.val && c.val ≤ 0xd) || c.val = 0x20 || c.val = 0xa0 ||
  c.val = 0x1680 || (0x2000 ≤ c.val && c.val ≤ 0x200a) ||
  c.val = 0x2028 || c.val = 0x2029 || c.val = 0x202f ||
  c.val = 0x205f || c.val = 0x3000 || c.val = 0xfeff

/-- `String.prototype.trim`, dropping `jsWhitespace` from both ends. -/
def jsTrimList (l : List Char) : List Char :=
  ((l.dropWhile jsWhitespace).reverse.dropWhile jsWhitespace).reverse

/-- JavaScript `s.trim()`. -/
def jsTrim (s : String) : String := ⟨jsTrimList s.data⟩

/-- The JS `\w` word-character class `[A-Za-z0-9_]` (used by `\b`). -/
def isWordChar (c : Char) : Bool :=
  ('A' ≤ c && c ≤ 'Z') || ('a' ≤ c && c ≤ 'z') || ('0' ≤ c && c ≤ '9') || c = '_'

/-- Case-insensitive prefix match against an upper-case pattern
(ASCII case folding, as in the `/i` regexes of the source). -/
def ciHasPrefixOf : List Char → List Char → Bool
  | [], _ => true
  | _ :: _, [] => false
  | p :: ps, c :: cs => (c.toUpper = p) && ciHasPrefixOf ps cs

/-- `String.prototype.toUpperCase` (ASCII case folding, which covers the
reserved keywords the handler upper-cases). -/
def jsToUpper (s : String) : String := ⟨s.data.map Char.toUpper⟩

/-- Exact prefix match of character lists. -/
def eqPrefixList : List Char → List Char → Bool
  | [], _ => true
  | _ :: _, [] => false
  | p :: ps, c :: cs => (c = p) && eqPrefixList ps cs

/-- `s.startsWith(pre)`. -/
def startsWithStr (s pre : String) : Bool := eqPrefixList pre.data s.data

/-- Word-boundary condition before a match position: start of string or a
preceding non-word character (the pattern starts with a word character). -/
def boundaryOk : Option Char → Bool
  | none => true
  | some c => !isWordChar c

/-- Search for `\bPAT` (case-insensitive), scanning every position and
remembering the previous character for the boundary test. -/
def findTok (pat : List Char) : Option Char → List Char → Bool
  | prev, [] => boundaryOk prev && ciHasPrefixOf pat []
  | prev, c :: cs =>
      (boundaryOk prev && ciHasPrefixOf pat (c :: cs)) || findTok pat (some c) cs

/-- `new RegExp("\\b" ++ pat, "i").test t` for a pattern made of word
characters followed by only-optional parts (as in `\bQUESTION\s*[:.]?\s*`,
which matches iff `\bQUESTION` matches). -/
def hasToken (t : String) (pat : String) : Bool := findTok pat.data none t.data

/-- Match a list of character predicates against the head of a list. -/
def patAt : List (Char → Bool) → List Char → Bool
  | [], _ => true
  | _ :: _, [] => false
  | p :: ps, c :: cs => p c && patAt ps cs

/-- `regex.test`: does the predicate-pattern match at any position? -/
def patFind (ps : List (Char → Bool)) : List Char → Bool
  | [] => patAt ps []
  | c :: cs => patAt ps (c :: cs) || patFind ps cs

/-- `/1\.\s/.test s` (source line 600). -/
def stepOne (s : String) : Bool :=
  patFind [fun c => c = '1', fun c => c = '.', jsWhitespace] s.data

/-- `/2\.\s/.test s` (source line 600). -/
def stepTwo (s : String) : Bool :=
  patFind [fun c => c = '2', fun c => c = '.', jsWhitespace] s.data

/-- The pro-tier numbered-steps check of the handler (source line 600):
both `1.` and `2.`, each followed by a whitespace character, occur
anywhere in the answer, in either order. -/
def hasSteps (s : String) : Bool := stepOne s && stepTwo s

def sentenceTerminal (c : Char) : Bool := c = '.' || c = '!' || c = '?'

/-- Count of the matches of the global regex `/[.!?]\s/g`: the number of
positions holding sentence-terminal punctuation followed by a whitespace
character (matches of this pattern can never overlap, since the two
character classes are disjoint). -/
def countTermWs : List Char → Nat
  | c1 :: c2 :: rest =>
      (if sentenceTerminal c1 && jsWhitespace c2 then 1 else 0) + countTermWs (c2 :: rest)
  | _ => 0

/-- `/[.!?]$/.test` on a list of characters. -/
def endsTerm (l : List Char) : Bool :=
  match l.getLast? with
  | some c => sentenceTerminal c
  | none => false

/-- `sentenceCount` of the source (lines 73-79): trim, then count
punctuation-followed-by-whitespace matches, plus one if the trimmed text
ends in sentence-terminal punctuation; the empty (or all-whitespace) text
counts zero. -/
def sentenceCount (text : String) : Nat :=
  let trimmed := jsTrim text
  if trimmed = "" then 0
  else countTermWs trimmed.data + (if endsTerm trimmed.data then 1 else 0)

def isDigitChar (c : Char) : Bool := '0' ≤ c && c ≤ '9'

def digitVal (c : Char) : Nat := c.toNat - '0'.toNat

def digitsToNat (l : List Char) : Nat := l.foldl (fun acc c => acc * 10 + digitVal c) 0

/-- Decimal digits of the fractional part `num/den` by long division,
stopping at an exact remainder or after `fuel` digits. -/
def fracDigits : Nat → Nat → Nat → String
  | 0, _, _ => ""
  | _ + 1, 0, _ => ""
  | fuel + 1, num, den =>
      let num10 := num * 10
      toString (num10 / den) ++ fracDigits fuel (num10 % den) den

/-- Decimal rendering of a JS number (string coercion).  Exact for the
terminating decimals the handler manipulates (parsed confidences, knot
counts); the exponent forms JS uses for extreme magnitudes are not
modelled, since no handler logic inspects them. -/
def numToString (q : ℚ) : String :=
  let sign := if q < 0 then "-" else ""
  let a := |q|
  let ip := a.num.toNat / a.den
  let rem := a.num.toNat % a.den
  if rem = 0 then sign ++ toString ip
  else sign ++ toString ip ++ "." ++ fracDigits 30 rem a.den

/-- JavaScript `String(v)` coercion.  Arrays stringify as their elements
joined by commas with `null`/`undefined` elements becoming empty strings;
plain objects become `[object Object]`.  Recursion through nested arrays
is by structural fuel, consumed only when entering an array. -/
def jsToStringFuel : Nat → JsVal → String
  | _, .undefined => "undefined"
  | _, .null => "null"
  | _, .bool b => if b then "true" else "false"
  | _, .num q => numToString q
  | _, .str s => s
  | _, .obj _ => "[object Object]"
  | 0, .arr _ => ""
  | fuel + 1, .arr xs =>
      String.intercalate "," (xs.map fun v =>
        match v with
        | .undefined => ""
        | .null => ""
        | w => jsToStringFuel fuel w)

/-- `String(v)`.  The fuel only bounds the nesting depth of arrays inside
arrays: the model agrees with JS for any value whose array nesting is below
1000, which covers everything the handler can receive. -/
def jsToString (v : JsVal) : String := jsToStringFuel 1000 v

/-- Exponent part of a JS number literal (`e`/`E` already consumed):
`parseFloat` includes it only when at least one digit follows. -/
def parseExp (r : List Char) : ℤ :=
  let signed : ℤ × List Char :=
    match r with
    | '-' :: rr => (-1, rr)
    | '+' :: rr => (1, rr)
    | _ => (1, r)
  let ds := signed.2.takeWhile isDigitChar
  if ds.isEmpty then 0 else signed.1 * digitsToNat ds

/-- `parseFloat` on a string: skip leading whitespace, optional sign,
longest decimal-literal prefix (integer digits, optional fraction,
optional exponent); `none` (NaN) when no digit is found.  The `Infinity`
literal is not modelled (it never flows through the gate differently from
NaN: neither is a number below 0.90). -/
def parseFloatString (s : String) : Option ℚ :=
  let l := s.data.dropWhile jsWhitespace
  let signed : ℚ × List Char :=
    match l with
    | '-' :: r => (-1, r)
    | '+' :: r => (1, r)
    | _ => (1, l)
  let ip := signed.2.takeWhile isDigitChar
  let l2 := signed.2.dropWhile isDigitChar
  let frac : List Char × List Char :=
    match l2 with
    | '.' :: r => (r.takeWhile isDigitChar, r.dropWhile isDigitChar)
    | _ => ([], l2)
  if ip.isEmpty && frac.1.isEmpty then none
  else
    let base : ℚ := (digitsToNat ip : ℚ) + (digitsToNat frac.1 : ℚ) / ((10 : ℚ) ^ frac.1.length)
    let e : ℤ :=
      match frac.2 with
      | 'e' :: r => parseExp r
      | 'E' :: r => parseExp r
      | _ => 0
    some (signed.1 * base * (10 : ℚ) ^ e)

/-- `parseFloat(v)` for a parsed-JSON value: JS coerces the argument to a
string first; for a finite number the roundtrip is the identity.
`none` models NaN. -/
def jsParseFloat : JsVal → Option ℚ
  | .num q => some q
  | w => parseFloatString (jsToString w)

/-- JS `<` against a number literal, where the left side may be NaN
(`none`): every comparison with NaN is false. -/
def jsLtNum (n : Option ℚ) (x : ℚ) : Bool :=
  match n with
  | some q => decide (q < x)
  | none => false

/-- Display of a JS number in a template literal (`${x}`): NaN prints as
`NaN`. -/
def confDisplay : Option ℚ → String
  | some q => numToString q
  | none => "NaN"

/-- A JS number as a JSON-serialised value (NaN serialises to `null`). -/
def jsNumVal : Option ℚ → JsVal
  | some q => .num q
  | none => .null

/-- A classification result as built by the handler: `table` is the raw
value from the prefix rules or the parsed GPT reply, `confidence` a JS
number (`none` = NaN), `method` one of `prefix`, `keyword`, `gpt`;
`reasoning` is `undef` for the non-GPT methods (the source objects simply
lack the field). -/
structure Detection where
  table : JsVal
  confidence : Option ℚ
  method : String
  reasoning : JsVal
deriving Repr

/-- JSON view of a detection, as parked in the review queue on low
confidence (`{ detection }`). -/
def detectionJs (d : Detection) : JsVal :=
  .obj [("table", d.table), ("confidence", jsNumVal d.confidence),
        ("method", .str d.method), ("reasoning", d.reasoning)]

/-- The ordered alternation `(FREE|PRO|EXCLUSIVE)` of the tier regex,
case-insensitive; returns the canonical lowercase tier (the source applies
`.toLowerCase()` to the capture) and the remainder after the keyword. -/
def tierKeyword (l : List Char) : Option (String × List Char) :=
  if ciHasPrefixOf "FREE".data l then some ("free", l.drop 4)
  else if ciHasPrefixOf "PRO".data l then some ("pro", l.drop 3)
  else if ciHasPrefixOf "EXCLUSIVE".data l then some ("exclusive", l.drop 9)
  else none

/-- `detectTier` of the source (lines 427-440): match
`/^TIER:\s*(FREE|PRO|EXCLUSIVE)[.\s]*/i` at the very start of the raw
transcript; on a match return the lowercased tier and the transcript with
the match removed and trimmed; otherwise default to `pro` with the
transcript unchanged.  The greedy `\s*` and `[.\s]*` never backtrack
usefully (no alternative begins with whitespace), so plain greedy
consumption is exact. -/
def detectTier (transcript : String) : String × String :=
  let l := transcript.data
  if ciHasPrefixOf "TIER:".data l then
    let rest := (l.drop 5).dropWhile jsWhitespace
    match tierKeyword rest with
    | some (tier, after) =>
        let after2 := after.dropWhile (fun c => c = '.' || jsWhitespace c)
        (tier, jsTrim ⟨after2⟩)
    | none => ("pro", transcript)
  else ("pro", transcript)

/-- `detectTableTypeByPrefix` of the source (lines 153-178).  Priority 1:
the strict prefixes `HARBOUR:`, `WEATHER:`, `MEDIA:` on the trimmed,
upper-cased transcript, confidence 1.0, method `prefix` (there is no
`QUESTION:` strict prefix in the code).  Priority 2: the word-boundary
tokens `question` and `answer` both occurring anywhere (case-insensitive),
confidence 0.99, method `keyword`.  Otherwise `none`, which sends the
handler to the GPT fallback. -/
def detectTableType (transcript : String) : Option Detection :=
  let upper := jsToUpper (jsTrim transcript)
  if startsWithStr upper "HARBOUR:" then
    some ⟨.str "harbours", some 1, "prefix", .undefined⟩
  else if startsWithStr upper "WEATHER:" then
    some ⟨.str "harbour_weather_profiles", some 1, "prefix", .undefined⟩
  else if startsWithStr upper "MEDIA:" then
    some ⟨.str "harbour_media", some 1, "prefix", .undefined⟩
  else if hasToken transcript "QUESTION" && hasToken transcript "ANSWER" then
    some ⟨.str "harbour_questions", some (99/100), "keyword", .undefined⟩
  else none

/-- The four tables the endpoint can route to. -/
inductive Table where
  | harbour_questions
  | harbours
  | harbour_weather_profiles
  | harbour_media
deriving DecidableEq, Repr

def tableName : Table → String
  | .harbour_questions => "harbour_questions"
  | .harbours => "harbours"
  | .harbour_weather_profiles => "harbour_weather_profiles"
  | .harbour_media => "harbour_media"

/-- The shared key set of the `validators` and cleaning-prompt tables:
any other key yields `undefined` and a `TypeError` on use. -/
def tableOf (s : String) : Option Table :=
  if s = "harbour_questions" then some .harbour_questions
  else if s = "harbours" then some .harbours
  else if s = "harbour_weather_profiles" then some .harbour_weather_profiles
  else if s = "harbour_media" then some .harbour_media
  else none

def isStrVal : JsVal → Bool
  | .str _ => true
  | _ => false

/-- JS strict equality of a value against a string literal (`v === "pro"`). -/
def isStr (v : JsVal) (s : String) : Bool :=
  match v with
  | .str t => t = s
  | _ => false

def isNullOrStr : JsVal → Bool
  | .null => true
  | .str _ => true
  | _ => false

def isStrArr : JsVal → Bool
  | .arr xs => xs.all isStrVal
  | _ => false

/-- An array whose elements are strings drawn from a closed enumeration. -/
def isEnumArr (vals : List String) : JsVal → Bool
  | .arr xs => xs.all fun v =>
      match v with
      | .str s => vals.contains s
      | _ => false
  | _ => false

/-- A JSON number holding an integer. -/
def isIntNum : JsVal → Bool
  | .num q => q.den = 1
  | _ => false

def objFieldKeys : List (String × JsVal) → List String
  | [] => []
  | (k, _) :: rest => k :: objFieldKeys rest

/-- Violations for keys outside the declared set (`additionalProperties:
false` in the spec's words: no properties beyond the declared set). -/
def checkKeys (declared : List String) (fs : List (String × JsVal)) : List String :=
  (objFieldKeys fs).filterMap fun k =>
    if declared.contains k then none else some ("unexpected property " ++ k)

/-- Required field of the given scalar check. -/
def checkReq (fs : List (String × JsVal)) (k : String) (good : JsVal → Bool)
    (msg : String) : List String :=
  match lookupField fs k with
  | some v => if good v then [] else [k ++ " " ++ msg]
  | none => [k ++ " is required"]

/-- Optional field: checked only when present. -/
def checkOpt (fs : List (String × JsVal)) (k : String) (good : JsVal → Bool)
    (msg : String) : List String :=
  match lookupField fs k with
  | some v => if good v then [] else [k ++ " " ++ msg]
  | none => []

def tierEnum : List String := ["free", "pro", "exclusive"]

def qnaCategories : List String :=
  ["Approach & Entry", "Mooring", "Anchoring", "Weather & Shelter",
   "Safety & Hazards", "Facilities & Services", "Local Knowledge",
   "Media Tutorials", "General"]

/-- Modelled from the spec: the compiled Ajv validator for the Q&A shape
(the schema file `schemas/qna_schema_v1.json` is loaded by the source but
is not under src/).  Per spec section 4.4 the validator enforces required
fields, types, exact canonical enumerations and no properties beyond the
declared set; the declared field set and enumerations are those of the
Q&A cleaning instruction in the source (part_010 lines 237-257): harbour,
question, answer strings; category from the closed category list; tags an
array of strings; tier from the closed lowercase tier set; notes null or
string.  The result is the violation list; empty means the record passes. -/
def validateQna (v : JsVal) : List String :=
  match v with
  | .obj fs =>
      checkKeys ["harbour", "question", "answer", "category", "tags", "tier", "notes"] fs ++
      checkReq fs "harbour" isStrVal "must be a string" ++
      checkReq fs "question" isStrVal "must be a string" ++
      checkReq fs "answer" isStrVal "must be a string" ++
      checkReq fs "category" (fun w => isStrVal w &&
        (match w with | .str s => qnaCategories.contains s | _ => false))
        "must be one of the canonical categories" ++
      checkReq fs "tags" isStrArr "must be an array of strings" ++
      checkReq fs "tier" (fun w =>
        (match w with | .str s => tierEnum.contains s | _ => false))
        "must be free, pro or exclusive" ++
      checkOpt fs "notes" isNullOrStr "must be null or a string"
  | _ => ["record is not an object"]

def facilitiesEnum : List String :=
  ["water", "fuel", "electricity", "wifi", "showers", "restaurant",
   "provisions", "chandlery", "laundry", "repair"]

/-- A coordinates object `{lat, lng}` with numeric members in range
(the spec's schema-boundary scenario rejects out-of-range coordinates). -/
def isCoords : JsVal → Bool
  | .obj fs =>
      (match lookupField fs "lat" with
       | some (.num q) => decide (-90 ≤ q ∧ q ≤ 90)
       | _ => false) &&
      (match lookupField fs "lng" with
       | some (.num q) => decide (-180 ≤ q ∧ q ≤ 180)
       | _ => false) &&
      (checkKeys ["lat", "lng"] fs).isEmpty
  | _ => false

/-- Modelled from the spec: the compiled Ajv validator for the harbour
master shape (schema file absent from src/).  Declared fields follow the
harbours cleaning instruction (part_010 lines 260-287): name required;
region, depth_range and the descriptive fields strings when present;
coordinates an object of in-range numbers; facilities an array over the
closed lowercase facility list; notes null or string. -/
def validateHarbours (v : JsVal) : List String :=
  match v with
  | .obj fs =>
      checkKeys ["name", "region", "coordinates", "depth_range", "facilities",
        "mooring_info", "approach_info", "shelter_info", "hazards", "holding",
        "seabed", "atmosphere", "best_arrival", "crowding_risk", "notes"] fs ++
      checkReq fs "name" isStrVal "must be a string" ++
      checkOpt fs "region" isStrVal "must be a string" ++
      checkOpt fs "coordinates" isCoords "must hold numeric lat and lng in range" ++
      checkOpt fs "depth_range" isStrVal "must be a string" ++
      checkOpt fs "facilities" (isEnumArr facilitiesEnum)
        "must be an array of canonical facility names" ++
      checkOpt fs "mooring_info" isStrVal "must be a string" ++
      checkOpt fs "approach_info" isStrVal "must be a string" ++
      checkOpt fs "shelter_info" isStrVal "must be a string" ++
      checkOpt fs "hazards" isStrVal "must be a string" ++
      checkOpt fs "holding" isStrVal "must be a string" ++
      checkOpt fs "seabed" isStrVal "must be a string" ++
      checkOpt fs "atmosphere" isStrVal "must be a string" ++
      checkOpt fs "best_arrival" isStrVal "must be a string" ++
      checkOpt fs "crowding_risk" isStrVal "must be a string" ++
      checkOpt fs "notes" isNullOrStr "must be null or a string"
  | _ => ["record is not an object"]

def windDirs : List String := ["n", "ne", "e", "se", "s", "sw", "w", "nw"]

/-- The `wind_directions` object of the weather shape. -/
def isWindDirections : JsVal → Bool
  | .obj fs =>
      (match lookupField fs "sheltered_from" with
       | some w => isEnumArr windDirs w
       | none => false) &&
      (match lookupField fs "exposed_to" with
       | some w => isEnumArr windDirs w
       | none => false) &&
      (checkKeys ["sheltered_from", "exposed_to"] fs).isEmpty
  | _ => false

/-- Modelled from the spec: the compiled Ajv validator for the weather
shape (schema file absent from src/).  Declared fields follow the weather
cleaning instruction (part_010 lines 290-316): `wind_directions` with the
two lowercase direction arrays is required, the descriptive fields are
strings when present and the three wind thresholds integers when present.
Note the declared set contains no harbour name field at all (the cleaning
instruction has none), so a record passing validation can never carry one. -/
def validateWeather (v : JsVal) : List String :=
  match v with
  | .obj fs =>
      checkKeys ["wind_directions", "safety_summary", "holding_quality",
        "surge_notes", "depth_notes", "fallback_options", "mooring_difficulty",
        "safe_wind_knots", "caution_wind_knots", "unsafe_wind_knots"] fs ++
      checkReq fs "wind_directions" isWindDirections
        "must hold the two lowercase direction arrays" ++
      checkOpt fs "safety_summary" isStrVal "must be a string" ++
      checkOpt fs "holding_quality" isStrVal "must be a string" ++
      checkOpt fs "surge_notes" isStrVal "must be a string" ++
      checkOpt fs "depth_notes" isStrVal "must be a string" ++
      checkOpt fs "fallback_options" isStrVal "must be a string" ++
      checkOpt fs "mooring_difficulty" isStrVal "must be a string" ++
      checkOpt fs "safe_wind_knots" isIntNum "must be an integer" ++
      checkOpt fs "caution_wind_knots" isIntNum "must be an integer" ++
      checkOpt fs "unsafe_wind_knots" isIntNum "must be an integer"
  | _ => ["record is not an object"]

/-- Modelled from the spec: the compiled Ajv validator for the media shape
(schema file absent from src/).  Declared fields follow the media cleaning
instruction (part_010 lines 319-336): media_type and url required strings,
description a string when present, tier from the closed lowercase set when
present. -/
def validateMedia (v : JsVal) : List String :=
  match v with
  | .obj fs =>
      checkKeys ["media_type", "url", "description", "tier"] fs ++
      checkReq fs "media_type" isStrVal "must be a string" ++
      checkReq fs "url" isStrVal "must be a string" ++
      checkOpt fs "description" isStrVal "must be a string" ++
      checkOpt fs "tier" (fun w =>
        (match w with | .str s => tierEnum.contains s | _ => false))
        "must be free, pro or exclusive"
  | _ => ["record is not an object"]

/-- The `validators` table of the source (lines 49-54), dispatching by
table. -/
def validateFor : Table → JsVal → List String
  | .harbour_questions, v => validateQna v
  | .harbours, v => validateHarbours v
  | .harbour_weather_profiles, v => validateWeather v
  | .harbour_media, v => validateMedia v

/-- The part of a cleaning system prompt that varies: the tier directive
line spliced into the Q&A instruction.  The rest of each prompt is fixed
natural-language instruction text that only the external cleaner reads;
no handler logic inspects it, so it is not reproduced here. -/
structure CleaningPrompt where
  tierDirective : Option String
deriving Repr

/-- `getCleaningPrompt` of the source (lines 235-340).  One fixed
instruction set per table; the detected tier is used only by the
harbour_questions prompt, via the template line at source line 255
(`IMPORTANT: Set tier to "..." (this was pre-detected from the input).`);
the harbours, weather and media prompts ignore the tier argument entirely.
In the source the lookup yields `undefined` for an unknown table key,
which makes the handler throw on `.system`; in this embedding that
unknown-key path is carried by `tableOf` (the two tables share their key
set). -/
def getCleaningPrompt (tt : Table) (tier : String) : CleaningPrompt :=
  match tt with
  | .harbour_questions =>
      ⟨some ("- IMPORTANT: Set tier to \"" ++ tier ++
        "\" (this was pre-detected from the input).")⟩
  | _ => ⟨none⟩

/-- `s` of the source (line 71): trim a string, pass anything else
through. -/
def sJs : JsVal → JsVal
  | .str t => .str (jsTrim t)
  | v => v

/-- `toArray` of the source (line 364): falsy values become `null`, arrays
pass through, and any other truthy value becomes a one-element array of
its trimmed self. -/
def toArray (val : JsVal) : JsVal :=
  if truthy val then
    match val with
    | .arr xs => .arr xs
    | v => .arr [sJs v]
  else .null

/-- A resolved harbour id as the JS value inserted in a payload
(`null` when unresolved). -/
def harbourIdVal : Option String → JsVal
  | some id => .str id
  | none => .null

/-- `transformToDbColumns` of the source (lines 346-417): the pure mapping
from a cleaned record and the resolved harbour id to the storage columns
of the target table.  Note that the harbour_questions payload carries
`harbour_name` and no `harbour_id` column; the weather and media payloads
carry `harbour_id`; the `default: throw` branch of the source is
unreachable here because the table is already one of the four known ones. -/
def transformToDbColumns (tt : Table) (cleaned : JsVal) (harbourId : Option String) : JsVal :=
  match tt with
  | .harbour_questions =>
      .obj [
        ("harbour_name", sJs (jsGet cleaned "harbour")),
        ("question", sJs (jsGet cleaned "question")),
        ("answer", sJs (jsGet cleaned "answer")),
        ("category", sJs (jsGet cleaned "category")),
        ("tags", jsOr (jsGet cleaned "tags") (.arr [])),
        ("tier", jsOr (sJs (jsGet cleaned "tier")) (.str "pro")),
        ("notes", jsOr (jsGet cleaned "notes") .null)]
  | .harbours =>
      .obj [
        ("name", sJs (jsGet cleaned "name")),
        ("island", jsOr (sJs (jsGet cleaned "region")) .null),
        ("lat", jsOr (jsGet (jsGet cleaned "coordinates") "lat") .null),
        ("lon", jsOr (jsGet (jsGet cleaned "coordinates") "lng") .null),
        ("depth_range", jsOr (sJs (jsGet cleaned "depth_range")) .null),
        ("facilities", jsOr (jsGet cleaned "facilities") (.arr [])),
        ("mooring", toArray (jsGet cleaned "mooring_info")),
        ("approach", toArray (jsGet cleaned "approach_info")),
        ("shelter", toArray (jsGet cleaned "shelter_info")),
        ("hazards", toArray (jsGet cleaned "hazards")),
        ("holding", toArray (jsGet cleaned "holding")),
        ("seabed", toArray (jsGet cleaned "seabed")),
        ("atmosphere", toArray (jsGet cleaned "atmosphere")),
        ("best_arrival", toArray (jsGet cleaned "best_arrival")),
        ("crowding_risk", toArray (jsGet cleaned "crowding_risk")),
        ("notes", jsOr (jsGet cleaned "notes") .null)]
  | .harbour_weather_profiles =>
      .obj [
        ("harbour_id", harbourIdVal harbourId),
        ("sheltered_from", jsOr (jsGet (jsGet cleaned "wind_directions") "sheltered_from") (.arr [])),
        ("exposed_to", jsOr (jsGet (jsGet cleaned "wind_directions") "exposed_to") (.arr [])),
        ("safety_summary", jsOr (sJs (jsGet cleaned "safety_summary")) .null),
        ("holding_quality", jsOr (sJs (jsGet cleaned "holding_quality")) .null),
        ("surge_notes", jsOr (sJs (jsGet cleaned "surge_notes")) .null),
        ("depth_notes", jsOr (sJs (jsGet cleaned "depth_notes")) .null),
        ("fallback_options", jsOr (sJs (jsGet cleaned "fallback_options")) .null),
        ("mooring_difficulty", jsOr (sJs (jsGet cleaned "mooring_difficulty")) .null),
        ("safe_wind_knots", jsOr (jsGet cleaned "safe_wind_knots") .null),
        ("caution_wind_knots", jsOr (jsGet cleaned "caution_wind_knots") .null),
        ("unsafe_wind_knots", jsOr (jsGet cleaned "unsafe_wind_knots") .null)]
  | .harbour_media =>
      .obj [
        ("harbour_id", harbourIdVal harbourId),
        ("media_type", sJs (jsGet cleaned "media_type")),
        ("file_url", sJs (jsGet cleaned "url")),
        ("description", jsOr (sJs (jsGet cleaned "description")) .null),
        ("tier", jsOr (sJs (jsGet cleaned "tier")) (.str "free"))]

/-- The POST body of the ingest endpoint: `transcript` required,
`harbour_name` and `row_id` optional (absent fields destructure to
`undefined`). -/
structure Request where
  transcript : Option String
  harbour_name : Option String
  row_id : Option String

/-- The request's `harbour_name` as the JS value the handler reads
(`undefined` when the field is absent). -/
def reqNameVal (req : Request) : JsVal :=
  match req.harbour_name with
  | some h => .str h
  | none => .undefined

/-- Replies of the external collaborators for one request, plus the
environment-specific strings (exception messages, stack text, generated
ids) the handler echoes but does not compute.
* `gptParsed`: the JSON-parsed fallback-classifier reply, `none` when the
  call or `JSON.parse` throws (which aborts the request).
* `cleanerRaw` / `cleanerParsed` / `cleanerParseErrMsg`: the cleaner reply
  text, its JSON parse (`none` = parse failure) and the parse error text.
* `lookupHarbour`: the harbour registry's case-insensitive single-match
  lookup, `none` for zero or multiple matches (or a lookup error).
* `queueId`: the id the review queue returns for a parked entry.
* `insertResult` / `insertErrorVal`: the primary-store insert outcome.
* `embedCreateOk` / `embedUpdateOk`: whether the embedding call and the
  follow-up row update succeed. -/
structure Oracles where
  gptParsed : Option JsVal
  gptErrStack : String
  unknownTableMsg : String
  cleanerRaw : String
  cleanerParsed : Option JsVal
  cleanerParseErrMsg : String
  lookupHarbour : String → Option String
  queueId : String
  insertResult : Option String
  insertErrorVal : JsVal
  embedCreateOk : Bool
  embedUpdateOk : Bool

/-- One row of the append-only `validation_errors` log
(`logValidationError`, source lines 82-97). -/
structure LogEntry where
  level : String
  title : String
  errorType : String
  details : JsVal
  transcript : String
  attemptedPayload : JsVal
  resolved : Bool
deriving Repr

/-- One row of the `qna_review_queue` parking lot (`parkInReviewQueue`,
source lines 100-118); the status is always inserted as `needs_review`. -/
structure ReviewEntry where
  transcript : String
  errorMessage : String
  errorType : String
  validationErrors : JsVal
  status : String
deriving Repr

/-- The side effects of one handler run: whether the GPT classifier and
the cleaner were invoked, the error-log appends, the review-queue inserts,
the primary-table insert attempts (table, payload), the successful inserts
(table, id, payload) and the embedding-column updates (table, id). -/
structure Effects where
  gptCalled : Bool
  cleanerCalled : Bool
  logs : List LogEntry
  queue : List ReviewEntry
  insertAttempts : List (String × JsVal)
  persisted : List (String × String × JsVal)
  embedUpdates : List (String × String)
deriving Repr

def Effects.empty : Effects := ⟨false, false, [], [], [], [], []⟩

/-- The response sent back to the caller; each constructor corresponds to
one `res.status(...).json(...)` site of the handler and carries the fields
of that site's JSON body that are not fixed text. -/
inductive Response where
  | missingTranscript
  | unhandled (message : String)
  | lowConfidence (confidence : Option ℚ) (suggested : JsVal) (reasoning : JsVal)
      (queueId : String)
  | parseFailed (raw : String)
  | validationFailed (table : String) (errors : List String) (cleaned : JsVal)
      (queueId : String)
  | proTierViolation (cleaned : JsVal)
  | freeTierViolation (sentences : Nat) (cleaned : JsVal)
  | harbourNotFound (name : String) (table : String) (queueId : String)
  | insertFailed (table : String) (cleaned : JsVal)
  | ok (table : String) (id : String) (confidence : Option ℚ) (method : String)
      (harbourId : Option String) (embeddingTriggered : Bool) (cleaned : JsVal)
      (inserted : JsVal)
deriving Repr

def Response.statusCode : Response → Nat
  | .missingTranscript => 400
  | .unhandled _ => 500
  | .insertFailed _ _ => 500
  | .ok _ _ _ _ _ _ _ _ => 200
  | _ => 422

/-- Outcome of STEP 1 of the handler: either a short-circuit response with
its effects, or a detection to continue with (plus whether the GPT
fallback was invoked on the way). -/
inductive ClassifyOutcome where
  | rejected (resp : Response) (eff : Effects)
  | proceed (det : Detection) (gptCalled : Bool)

/-- STEP 1 of the handler (source lines 477-510): prefix/keyword detection
first; otherwise the GPT fallback (a classifier parse failure throws into
the outer catch, logging critical and answering 500); a parsed fallback
reply whose confidence compares below 0.90 is parked and logged and
answers 422 with the suggested table and reasoning. -/
def classifyStep (t working : String) (o : Oracles) : ClassifyOutcome :=
  match detectTableType working with
  | some det => .proceed det false
  | none =>
    match o.gptParsed with
    | none =>
        .rejected (.unhandled "Table type classification failed")
          ⟨true, false,
           [⟨"critical", "Unhandled Error", "unhandled_exception",
             .obj [("error", .str "Table type classification failed"),
                   ("stack", .str o.gptErrStack)], t, .null, false⟩],
           [], [], [], []⟩
    | some v =>
        let conf := jsParseFloat (jsGet v "confidence")
        let det : Detection := ⟨jsGet v "table", conf, "gpt", jsGet v "reasoning"⟩
        if jsLtNum conf (9/10) then
          .rejected (.lowConfidence conf (jsGet v "table") (jsGet v "reasoning") o.queueId)
            ⟨true, false,
             [⟨"medium", "Low Classification Confidence", "low_confidence",
               .obj [("confidence", jsNumVal conf),
                     ("suggested_table", jsGet v "table"),
                     ("reasoning", jsGet v "reasoning")], t, .null, false⟩],
             [⟨t, "Low AI confidence: " ++ confDisplay conf, "low_confidence",
               .obj [("detection", detectionJs det)], "needs_review"⟩],
             [], [], []⟩
        else .proceed det true

/-- STEP 6 and STEP 7 of the handler (source lines 687-804): conditional
`source` column, the single insert (a failure logs critical and answers
500 with the cleaned record), then the embedding trigger for
harbour_questions (always) and harbour_media (only with a truthy
description), whose failures are non-fatal. -/
def insertStage (req : Request) (o : Oracles) (t : String) (tt : Table)
    (cleaned : JsVal) (det : Detection) (g : Bool) (harbourId : Option String) :
    Response × Effects :=
  let payload0 := transformToDbColumns tt cleaned harbourId
  let payload :=
    match tt, req.row_id with
    | .harbour_questions, some rid =>
        if rid = "" then payload0 else objSet payload0 "source" (.str rid)
    | _, _ => payload0
  match o.insertResult with
  | none =>
      (.insertFailed (tableName tt) cleaned,
       ⟨g, true,
        [⟨"critical", "Database Insert Failed", "db_insert_error",
          .obj [("supabase_error", o.insertErrorVal), ("table", .str (tableName tt))],
          t, payload, false⟩],
        [], [(tableName tt, payload)], [], []⟩)
  | some rid =>
      let embeds : Bool × List (String × String) :=
        match tt with
        | .harbour_questions =>
            if o.embedCreateOk then (o.embedUpdateOk, [("harbour_questions", rid)])
            else (false, [])
        | .harbour_media =>
            if truthy (jsGet cleaned "description") then
              if o.embedCreateOk then (o.embedUpdateOk, [("harbour_media", rid)])
              else (false, [])
            else (false, [])
        | _ => (false, [])
      (.ok (tableName tt) rid det.confidence det.method harbourId embeds.1 cleaned payload,
       ⟨g, true, [], [], [(tableName tt, payload)], [(tableName tt, rid, payload)],
        embeds.2⟩)

/-- STEPs 2-5 of the handler (source lines 515-681): cleaning-prompt
lookup (an unknown table key throws on `.system` into the outer catch),
the cleaner call and JSON parse (a parse failure logs high and answers 422
without parking), Ajv validation (a violation parks and logs high before
the 422), the Q&A tier guardrails (422, logged medium, not parked), and
harbour resolution (skipped for the harbours table or when no truthy
harbour value is available; a failed resolution parks and logs high before
the 422).  The guardrails read the answer through the JS string coercion
of the regex test; `sentenceCount` receives the answer itself in the
source, but validation has already forced it to be a string on every path
that reaches the guardrails, where the two agree. -/
def pipeline (req : Request) (o : Oracles) (t detectedTier : String)
    (det : Detection) (g : Bool) : Response × Effects :=
  match tableOf (jsToString det.table) with
  | none =>
      (.unhandled o.unknownTableMsg,
       ⟨g, false,
        [⟨"critical", "Unhandled Error", "unhandled_exception",
          .obj [("error", .str o.unknownTableMsg), ("stack", .str o.gptErrStack)],
          t, .null, false⟩],
        [], [], [], []⟩)
  | some tt =>
    let _prompt := getCleaningPrompt tt detectedTier
    match o.cleanerParsed with
    | none =>
        (.parseFailed o.cleanerRaw,
         ⟨g, true,
          [⟨"high", "JSON Parse Failed", "json_parse_error",
            .obj [("error", .str o.cleanerParseErrMsg),
                  ("raw_response", .str o.cleanerRaw)], t, .null, false⟩],
          [], [], [], []⟩)
    | some cleaned =>
      match validateFor tt cleaned with
      | e :: es =>
          (.validationFailed (tableName tt) (e :: es) cleaned o.queueId,
           ⟨g, true,
            [⟨"high", "Schema Validation Failed", "schema_validation",
              .obj [("errors", .arr ((e :: es).map .str)),
                    ("table", .str (tableName tt))], t, cleaned, false⟩],
            [⟨t, "Schema validation failed", "schema_validation",
              .arr ((e :: es).map .str), "needs_review"⟩],
            [], [], []⟩)
      | [] =>
        if tt = Table.harbour_questions && isStr (jsGet cleaned "tier") "pro" &&
            !hasSteps (jsToString (jsGet cleaned "answer")) then
          (.proTierViolation cleaned,
           ⟨g, true,
            [⟨"medium", "Pro Tier Format Violation", "tier_validation",
              .obj [("tier", .str "pro"), ("issue", .str "missing_numbered_steps")],
              t, cleaned, false⟩],
            [], [], [], []⟩)
        else if tt = Table.harbour_questions && isStr (jsGet cleaned "tier") "free" &&
            decide (2 < sentenceCount (jsToString (jsGet cleaned "answer"))) then
          (.freeTierViolation (sentenceCount (jsToString (jsGet cleaned "answer"))) cleaned,
           ⟨g, true,
            [⟨"medium", "Free Tier Length Violation", "tier_validation",
              .obj [("tier", .str "free"),
                    ("sentence_count", .num (sentenceCount (jsToString (jsGet cleaned "answer")))),
                    ("max_allowed", .num 2)], t, cleaned, false⟩],
            [], [], [], []⟩)
        else
          let hfield := if tt = Table.harbour_questions then "harbour" else "harbour_name"
          let hvOr := jsOr (jsGet cleaned hfield) (reqNameVal req)
          if !(tt = Table.harbours) && truthy hvOr then
            match o.lookupHarbour (jsToString hvOr) with
            | some hid => insertStage req o t tt cleaned det g (some hid)
            | none =>
                (.harbourNotFound (jsToString hvOr) (tableName tt) o.queueId,
                 ⟨g, true,
                  [⟨"high", "Harbour Not Found", "missing_harbour",
                    .obj [("harbour_name", hvOr), ("table", .str (tableName tt))],
                    t, cleaned, false⟩],
                  [⟨t, "Harbour not found: " ++ jsToString hvOr, "missing_harbour",
                    .obj [("harbour_name", hvOr)], "needs_review"⟩],
                  [], [], []⟩)
          else insertStage req o t tt cleaned det g none

/-- The handler of `/api/ingest_universal` (source lines 446-829) as a
pure function from the request and the collaborator oracles to the
response and the performed side effects.  A missing or all-whitespace
transcript answers 400 before anything runs; then the tier directive is
stripped, the working transcript classified, and the pipeline executed. -/
def ingest (req : Request) (o : Oracles) : Response × Effects :=
  match req.transcript with
  | none => (.missingTranscript, Effects.empty)
  | some t =>
    if jsTrim t = "" then (.missingTranscript, Effects.empty)
    else
      match classifyStep t (detectTier t).2 o with
      | .rejected r e => (r, e)
      | .proceed det g => pipeline req o t (detectTier t).1 det g

/-- A harbour registry holding exactly `Kioni` (used by the concrete
runs). -/
def kioniRegistry : String → Option String :=
  fun n => if n = "Kioni" then some "h-1" else none

/-- A cleaned weather record carrying every declared field and, as the
cleaning instruction prescribes, no harbour name of any kind. -/
def weatherRec : JsVal := .obj [
  ("wind_directions", .obj [("sheltered_from", .arr [.str "n", .str "nw"]),
                            ("exposed_to", .arr [.str "se"])]),
  ("safety_summary", .str "Good shelter in meltemi."),
  ("holding_quality", .str "good"),
  ("surge_notes", .str "Minor surge in southerlies."),
  ("depth_notes", .str "3-8m"),
  ("fallback_options", .str "Vathi"),
  ("mooring_difficulty", .str "easy"),
  ("safe_wind_knots", .num 15),
  ("caution_wind_knots", .num 25),
  ("unsafe_wind_knots", .num 35)]

/-- A weather request that names no harbour anywhere: not in the request
body and (necessarily) not in the cleaned record. -/
def c1req : Request := ⟨some "WEATHER: Kioni profile. Sheltered from north.", none, none⟩

def c1o : Oracles :=
  ⟨none, "stack", "TypeError", "", some weatherRec, "parse error",
   kioniRegistry, "rq-1", some "w-1", .str "insert error", false, false⟩

/-- A weather request naming a harbour the registry does not hold. -/
def c1fReq : Request :=
  ⟨some "WEATHER: Atlantis profile. Sheltered from north.", some "Atlantis", none⟩

def c1fO : Oracles :=
  ⟨none, "stack", "TypeError", "", some weatherRec, "parse error",
   kioniRegistry, "rq-1", some "w-2", .str "insert error", false, false⟩

/-- A valid pro-tier Q&A record whose answer has the numbered markers in
the wrong order: a later `1.` with no `2.` after it. -/
def qnaSwap : JsVal := .obj [
  ("harbour", .str "Kioni"),
  ("question", .str "How to stern-to?"),
  ("answer", .str "2. Reverse slowly. 1. Drop anchor early."),
  ("category", .str "Mooring"),
  ("tags", .arr [.str "mooring:stern_to", .str "scope:harbour"]),
  ("tier", .str "pro"),
  ("notes", .null)]

def c4req : Request :=
  ⟨some "QUESTION: Kioni stern-to. ANSWER: 2. Reverse slowly. 1. Drop anchor early.",
   none, none⟩

def c4o : Oracles :=
  ⟨none, "stack", "TypeError", "", some qnaSwap, "parse error",
   kioniRegistry, "rq-1", some "q-7", .str "insert error", false, false⟩

/-- A valid pro-tier Q&A record whose answer has no numbered steps at
all. -/
def qnaNoSteps : JsVal := .obj [
  ("harbour", .str "Kioni"),
  ("question", .str "How to stern-to?"),
  ("answer", .str "Just reverse in."),
  ("category", .str "Mooring"),
  ("tags", .arr [.str "mooring:stern_to"]),
  ("tier", .str "pro"),
  ("notes", .null)]

def c4wReq : Request :=
  ⟨some "QUESTION: Kioni stern-to. ANSWER: Just reverse in.", none, none⟩

def c4wO : Oracles :=
  ⟨none, "stack", "TypeError", "", some qnaNoSteps, "parse error",
   kioniRegistry, "rq-1", some "q-8", .str "insert error", false, false⟩

/-- Test 1 of the repository's own test document (src/unnamed/part_009): a
`QUESTION:`-prefixed transcript, expected there to classify with method
`prefix` and confidence 1.0. -/
def questionPrefixTranscript : String :=
  "QUESTION: Kioni mooring. How to stern-to? 1. Drop anchor 30m out. 2. Reverse slowly. 3. Crew steps ashore with lines. 4. Secure to quay cleats."

def c3req : Request := ⟨some questionPrefixTranscript, some "Kioni", some "test-001"⟩

def c3o : Oracles :=
  ⟨none, "stack", "TypeError", "", none, "parse error",
   kioniRegistry, "rq-1", none, .str "insert error", false, false⟩

/-- A transcript with an explicit `TIER: FREE` directive. -/
def c6transcript : String :=
  "TIER: FREE QUESTION: How to moor? ANSWER: 1. Drop anchor. 2. Reverse."

/-- The cleaner's reply for the `TIER: FREE` run: a valid record whose
tier is `pro`, not the extracted `free`. -/
def qnaProTier : JsVal := .obj [
  ("harbour", .str "Kioni"),
  ("question", .str "How to moor?"),
  ("answer", .str "1. Drop anchor. 2. Reverse."),
  ("category", .str "Mooring"),
  ("tags", .arr [.str "mooring:stern_to"]),
  ("tier", .str "pro"),
  ("notes", .null)]

def c6req : Request := ⟨some c6transcript, none, none⟩

def c6o : Oracles :=
  ⟨none, "stack", "TypeError", "", some qnaProTier, "parse error",
   kioniRegistry, "rq-1", some "q-9", .str "insert error", false, false⟩

/-- A transcript that matches no prefix and no keyword pair, forcing the
GPT fallback. -/
def vagueTranscript : String := "Nice place, good food."

/-- A parsed fallback reply with confidence 0.65. -/
def gptLowReply : JsVal := .obj [
  ("table", .str "harbour_questions"),
  ("confidence", .num (mkRat 13 20)),
  ("reasoning", .str "too vague")]

def c2req : Request := ⟨some vagueTranscript, none, none⟩

def c2o : Oracles :=
  ⟨some gptLowReply, "stack", "TypeError", "", none, "parse error",
   kioniRegistry, "rq-1", none, .str "insert error", false, false⟩

/-- A cleaner reply that is not an acceptable record: wrong type and
missing fields. -/
def badQna : JsVal := .obj [("harbour", .num 5)]

def keywordTranscript : String := "QUESTION: How deep is it? ANSWER: About five metres."

def c5req : Request := ⟨some keywordTranscript, none, none⟩

def c5o : Oracles :=
  ⟨none, "stack", "TypeError", "", some badQna, "parse error",
   kioniRegistry, "rq-1", none, .str "insert error", false, false⟩

/-- A valid free-tier Q&A record whose answer counts three sentences. -/
def qnaFreeLong : JsVal := .obj [
  ("harbour", .str "Kioni"),
  ("question", .str "Where is water?"),
  ("answer", .str "One. Two. Three."),
  ("category", .str "Facilities & Services"),
  ("tags", .arr [.str "facility:water"]),
  ("tier", .str "free"),
  ("notes", .null)]

def c7req : Request := ⟨some "QUESTION: Where is water? ANSWER: One. Two. Three.", none, none⟩

def c7o : Oracles :=
  ⟨none, "stack", "TypeError", "", some qnaFreeLong, "parse error",
   kioniRegistry, "rq-1", some "q-11", .str "insert error", false, false⟩

def c9req : Request := ⟨some keywordTranscript, none, none⟩

def c9o : Oracles :=
  ⟨none, "stack", "TypeError", "not json at all", none, "Unexpected token",
   kioniRegistry, "rq-1", none, .str "insert error", false, false⟩

/-- A parsed fallback reply whose `confidence` field is absent:
`parseFloat(undefined)` is NaN. -/
def gptNoConfReply : JsVal := .obj [
  ("table", .str "harbour_questions"),
  ("reasoning", .str "looks like a question and answer")]

/-- A valid pro-tier Q&A record with numbered steps. -/
def qnaGood : JsVal := .obj [
  ("harbour", .str "Kioni"),
  ("question", .str "How to stern-to?"),
  ("answer", .str "1. Drop anchor. 2. Reverse slowly."),
  ("category", .str "Mooring"),
  ("tags", .arr [.str "mooring:stern_to"]),
  ("tier", .str "pro"),
  ("notes", .null)]

def c10req : Request := ⟨some "Tell me about the place.", none, none⟩

def c10o : Oracles :=
  ⟨some gptNoConfReply, "stack", "TypeError", "", some qnaGood, "parse error",
   kioniRegistry, "rq-1", some "q-10", .str "insert error", false, false⟩

/-- The STEP 5 harbour-name candidate for the non-Q&A shapes: the cleaned
record's `harbour_name` if truthy, else the request's `harbour_name`
(`cleaned[harbourFieldName] || harbour_name`, source line 647). -/
def harbourCandidate (req : Request) (c : JsVal) : JsVal :=
  jsOr (jsGet c "harbour_name") (reqNameVal req)

/-- Claim C1 counterexample: a weather request naming no harbour anywhere
reaches the persistence insert — and is persisted with a 200 — with a
payload whose `harbour_id` is null, because the handler skips resolution
entirely when no harbour value is available (`tableType !== 'harbours' &&
harbourValue`, source line 652).  This refutes the claim that every
non-harbours record reaching the insert carries a non-null harbour_id. -/
theorem c1_counterexample :
    (ingest c1req c1o).2.insertAttempts =
      [("harbour_weather_profiles",
        transformToDbColumns Table.harbour_weather_profiles weatherRec none)] ∧
    jsGet (transformToDbColumns Table.harbour_weather_profiles weatherRec none)
      "harbour_id" = JsVal.null ∧
    (ingest c1req c1o).2.persisted =
      [("harbour_weather_profiles", "w-1",
        transformToDbColumns Table.harbour_weather_profiles weatherRec none)] ∧
    (ingest c1req c1o).1.statusCode = 200 :=
  ⟨by rfl, by rfl, by rfl, by rfl⟩

/-- Claim C1 amended: for the weather and media shapes, when a truthy
harbour value is available (cleaned record or request), either the
registry resolves it — and the insert is reached with that id in the
payload's `harbour_id` — or resolution fails, in which case the request is
parked and answered 422 and never reaches the insert.  Hence reaching the
insert with a truthy harbour name implies a resolved non-null id in the
payload.  When no truthy harbour value is available the handler skips
resolution and reaches the insert with `harbour_id` null; and a Q&A
payload never carries a `harbour_id` column at all (it carries
`harbour_name`). -/
theorem c1_amended :
    (∀ (req : Request) (o : Oracles) (t : String) (det : Detection) (g : Bool)
       (tt : Table) (c : JsVal),
      req.transcript = some t → jsTrim t ≠ "" →
      classifyStep t (detectTier t).2 o = .proceed det g →
      tableOf (jsToString det.table) = some tt →
      (tt = Table.harbour_weather_profiles ∨ tt = Table.harbour_media) →
      o.cleanerParsed = some c →
      validateFor tt c = [] →
      (∀ id, truthy (harbourCandidate req c) = true →
        o.lookupHarbour (jsToString (harbourCandidate req c)) = some id →
        (ingest req o).2.insertAttempts =
          [(tableName tt, transformToDbColumns tt c (some id))] ∧
        jsGet (transformToDbColumns tt c (some id)) "harbour_id" = JsVal.str id) ∧
      (truthy (harbourCandidate req c) = true →
        o.lookupHarbour (jsToString (harbourCandidate req c)) = none →
        (ingest req o).1 =
          .harbourNotFound (jsToString (harbourCandidate req c)) (tableName tt)
            o.queueId ∧
        (ingest req o).1.statusCode = 422 ∧
        (ingest req o).2.queue =
          [⟨t, "Harbour not found: " ++ jsToString (harbourCandidate req c),
            "missing_harbour", .obj [("harbour_name", harbourCandidate req c)],
            "needs_review"⟩] ∧
        (ingest req o).2.insertAttempts = [] ∧
        (ingest req o).2.persisted = []) ∧
      (truthy (harbourCandidate req c) = false →
        (ingest req o).2.insertAttempts =
          [(tableName tt, transformToDbColumns tt c none)] ∧
        jsGet (transformToDbColumns tt c none) "harbour_id" = JsVal.null)) ∧
    (∀ (c : JsVal) (hid : Option String),
      objHasKey (transformToDbColumns Table.harbour_questions c hid) "harbour_id" = false) := by
  constructor
  · intro req o t det g tt c h1 h2 h3 h4 htt h5 h6
    have hing : ingest req o = pipeline req o t (detectTier t).1 det g := by
      simp only [ingest, h1]
      rw [if_neg h2, h3]
    rcases htt with rfl | rfl
    · refine ⟨fun id hcand hlook => ?_, fun hcand hfail => ?_, fun hcand => ?_⟩
      · rw [hing]
        simp only [harbourCandidate] at hcand hlook
        simp [pipeline, h4, h5, h6, hcand, hlook]
        rcases hir : o.insertResult with _ | rid <;>
          simp [insertStage, hir, jsGet, transformToDbColumns, lookupField, harbourIdVal]
      · rw [hing]
        simp only [harbourCandidate] at hcand hfail ⊢
        simp [pipeline, h4, h5, h6, hcand, hfail, tableName, Response.statusCode]
      · rw [hing]
        simp only [harbourCandidate] at hcand
        simp [pipeline, h4, h5, h6, hcand]
        rcases hir : o.insertResult with _ | rid <;>
          simp [insertStage, hir, jsGet, transformToDbColumns, lookupField, harbourIdVal]
    · refine ⟨fun id hcand hlook => ?_, fun hcand hfail => ?_, fun hcand => ?_⟩
      · rw [hing]
        simp only [harbourCandidate] at hcand hlook
        simp [pipeline, h4, h5, h6, hcand, hlook]
        rcases hir : o.insertResult with _ | rid <;>
          simp [insertStage, hir, jsGet, transformToDbColumns, lookupField, harbourIdVal]
      · rw [hing]
        simp only [harbourCandidate] at hcand hfail ⊢
        simp [pipeline, h4, h5, h6, hcand, hfail, tableName, Response.statusCode]
      · rw [hing]
        simp only [harbourCandidate] at hcand
        simp [pipeline, h4, h5, h6, hcand]
        rcases hir : o.insertResult with _ | rid <;>
          simp [insertStage, hir, jsGet, transformToDbColumns, lookupField, harbourIdVal]
  · intro c hid
    simp [transformToDbColumns, objHasKey, lookupField]

/-- Witness for `c1_amended` at the concrete no-harbour-name weather run:
the skip branch applies and the payload's harbour_id is null. -/
theorem c1_amended_witness :
    ((ingest c1req c1o).2.insertAttempts =
      [("harbour_weather_profiles",
        transformToDbColumns Table.harbour_weather_profiles weatherRec none)] ∧
     jsGet (transformToDbColumns Table.harbour_weather_profiles weatherRec none)
      "harbour_id" = JsVal.null) ∧
    ((ingest c1fReq c1fO).1 =
      .harbourNotFound "Atlantis" "harbour_weather_profiles" "rq-1" ∧
     (ingest c1fReq c1fO).1.statusCode = 422 ∧
     (ingest c1fReq c1fO).2.queue =
      [⟨"WEATHER: Atlantis profile. Sheltered from north.",
        "Harbour not found: Atlantis", "missing_harbour",
        .obj [("harbour_name", .str "Atlantis")], "needs_review"⟩] ∧
     (ingest c1fReq c1fO).2.insertAttempts = [] ∧
     (ingest c1fReq c1fO).2.persisted = []) :=
  ⟨(c1_amended.1 c1req c1o "WEATHER: Kioni profile. Sheltered from north."
      ⟨.str "harbour_weather_profiles", some 1, "prefix", .undefined⟩ false
      Table.harbour_weather_profiles weatherRec rfl (by decide) (by rfl) (by rfl)
      (Or.inl rfl) rfl (by rfl)).2.2 (by rfl),
   (c1_amended.1 c1fReq c1fO "WEATHER: Atlantis profile. Sheltered from north."
      ⟨.str "harbour_weather_profiles", some 1, "prefix", .undefined⟩ false
      Table.harbour_weather_profiles weatherRec rfl (by decide) (by rfl) (by rfl)
      (Or.inl rfl) rfl (by rfl)).2.1 (by rfl) (by rfl)⟩

/-- Claim C2: a fallback-classified request whose parsed confidence is a
genuine number strictly below 0.90 is parked in the review queue, logged,
and answered 422 with the suggested table and reasoning; the cleaner is
never invoked and nothing touches a primary table. -/
theorem c2_low_confidence_gate (req : Request) (o : Oracles) (t : String)
    (v : JsVal) (q : ℚ)
    (h1 : req.transcript = some t) (h2 : jsTrim t ≠ "")
    (h3 : detectTableType (detectTier t).2 = none)
    (h4 : o.gptParsed = some v)
    (h5 : jsParseFloat (jsGet v "confidence") = some q)
    (h6 : q < 9/10) :
    (ingest req o).1 =
      .lowConfidence (some q) (jsGet v "table") (jsGet v "reasoning") o.queueId ∧
    (ingest req o).1.statusCode = 422 ∧
    (ingest req o).2.queue =
      [⟨t, "Low AI confidence: " ++ confDisplay (some q), "low_confidence",
        .obj [("detection",
          detectionJs ⟨jsGet v "table", some q, "gpt", jsGet v "reasoning"⟩)],
        "needs_review"⟩] ∧
    (ingest req o).2.logs =
      [⟨"medium", "Low Classification Confidence", "low_confidence",
        .obj [("confidence", jsNumVal (some q)),
              ("suggested_table", jsGet v "table"),
              ("reasoning", jsGet v "reasoning")], t, .null, false⟩] ∧
    (ingest req o).2.cleanerCalled = false ∧
    (ingest req o).2.insertAttempts = [] ∧
    (ingest req o).2.persisted = [] := by
  have hlt : jsLtNum (some q) (9/10) = true := by
    simpa [jsLtNum] using h6
  have hcs : classifyStep t (detectTier t).2 o =
      .rejected (.lowConfidence (some q) (jsGet v "table") (jsGet v "reasoning") o.queueId)
        ⟨true, false,
         [⟨"medium", "Low Classification Confidence", "low_confidence",
           .obj [("confidence", jsNumVal (some q)),
                 ("suggested_table", jsGet v "table"),
                 ("reasoning", jsGet v "reasoning")], t, .null, false⟩],
         [⟨t, "Low AI confidence: " ++ confDisplay (some q), "low_confidence",
           .obj [("detection",
             detectionJs ⟨jsGet v "table", some q, "gpt", jsGet v "reasoning"⟩)],
           "needs_review"⟩],
         [], [], []⟩ := by
    simp only [classifyStep, h3, h4, hlt, if_true, h5]
  simp only [ingest, h1]
  rw [if_neg h2, hcs]
  exact ⟨rfl, rfl, rfl, rfl, rfl, rfl, rfl⟩

/-- Witness for `c2_low_confidence_gate`: the fallback reply with
confidence 0.65 on an unclassifiable transcript is parked, logged and
answered 422, with no cleaning call and no insert. -/
theorem c2_witness :
    (ingest c2req c2o).1 =
      .lowConfidence (some (mkRat 13 20)) (.str "harbour_questions") (.str "too vague") "rq-1" ∧
    (ingest c2req c2o).1.statusCode = 422 ∧
    (ingest c2req c2o).2.queue =
      [⟨vagueTranscript, "Low AI confidence: 0.65", "low_confidence",
        .obj [("detection",
          detectionJs ⟨.str "harbour_questions", some (mkRat 13 20), "gpt", .str "too vague"⟩)],
        "needs_review"⟩] ∧
    (ingest c2req c2o).2.logs =
      [⟨"medium", "Low Classification Confidence", "low_confidence",
        .obj [("confidence", .num (mkRat 13 20)),
              ("suggested_table", .str "harbour_questions"),
              ("reasoning", .str "too vague")], vagueTranscript, .null, false⟩] ∧
    (ingest c2req c2o).2.cleanerCalled = false ∧
    (ingest c2req c2o).2.insertAttempts = [] ∧
    (ingest c2req c2o).2.persisted = [] :=
  c2_low_confidence_gate c2req c2o vagueTranscript gptLowReply (mkRat 13 20)
    rfl (by decide) (by rfl) rfl (by rfl) (by norm_num [mkRat])

/-- Claim C3 at the failing input: the `QUESTION:`-prefixed transcript of
the repository's own Test 1 (part_009), which contains no `answer` token,
is NOT classified by the strict-prefix rule — `detectTableTypeByPrefix`
has no `QUESTION:` branch, so detection returns null and the handler
invokes the GPT fallback collaborator, contradicting the claimed
deterministic prefix classification at confidence 1.0. -/
theorem c3_question_prefix_not_strict :
    detectTableType questionPrefixTranscript = none ∧
    (ingest c3req c3o).2.gptCalled = true ∧
    (ingest c3req c3o).1.statusCode = 500 :=
  ⟨by rfl, by rfl, by rfl⟩

/-- Substring search: does the pattern occur at any position? -/
def findSubList (pat : List Char) : List Char → Bool
  | [] => eqPrefixList pat []
  | c :: cs => eqPrefixList pat (c :: cs) || findSubList pat cs

/-- Occurrence of `1.` with a `2.` strictly later in the text. -/
def orderedMarkersAux : List Char → Bool
  | [] => false
  | c :: cs =>
      (eqPrefixList ['1', '.'] (c :: cs) && findSubList ['2', '.'] cs) ||
        orderedMarkersAux cs

/-- Follows the claim's words (not the source): the answer contains the
marker `1.` followed later in the text by the marker `2.`. -/
def specOrderedMarkers (s : String) : Bool := orderedMarkersAux s.data

/-- Claim C4 counterexample: a valid pro-tier Q&A record whose answer is
`2. Reverse slowly. 1. Drop anchor early.` — the markers occur only in the
wrong order, so the claim's condition (`1.` followed later by `2.`) fails —
passes the guardrail and is persisted with a 200, because the source
checks `/1\.\s/` and `/2\.\s/` independently, order-blind (line 600). -/
theorem c4_counterexample :
    specOrderedMarkers "2. Reverse slowly. 1. Drop anchor early." = false ∧
    jsGet qnaSwap "tier" = JsVal.str "pro" ∧
    jsGet qnaSwap "answer" = JsVal.str "2. Reverse slowly. 1. Drop anchor early." ∧
    (ingest c4req c4o).2.persisted =
      [("harbour_questions", "q-7",
        transformToDbColumns Table.harbour_questions qnaSwap (some "h-1"))] ∧
    (ingest c4req c4o).1.statusCode = 200 :=
  ⟨by rfl, by rfl, by rfl, by rfl, by rfl⟩

/-- Claim C4 amended: for a Q&A record that reaches the guardrail with
tier `pro`, the guardrail allows continuation exactly when the answer
contains `1.` followed by a whitespace character and `2.` followed by a
whitespace character, each anywhere in the text and in either order; a
pro-tier answer failing this yields a 422 guardrail violation logged at
medium severity, with no review-queue entry and no insert. -/
theorem c4_amended (req : Request) (o : Oracles) (t : String) (det : Detection)
    (g : Bool) (c : JsVal)
    (h1 : req.transcript = some t) (h2 : jsTrim t ≠ "")
    (h3 : classifyStep t (detectTier t).2 o = .proceed det g)
    (h4 : tableOf (jsToString det.table) = some Table.harbour_questions)
    (h5 : o.cleanerParsed = some c)
    (h6 : validateFor Table.harbour_questions c = [])
    (h7 : jsGet c "tier" = JsVal.str "pro") :
    (hasSteps (jsToString (jsGet c "answer")) = false →
      (ingest req o).1 = .proTierViolation c ∧
      (ingest req o).1.statusCode = 422 ∧
      (ingest req o).2.logs =
        [⟨"medium", "Pro Tier Format Violation", "tier_validation",
          .obj [("tier", .str "pro"), ("issue", .str "missing_numbered_steps")],
          t, c, false⟩] ∧
      (ingest req o).2.queue = [] ∧
      (ingest req o).2.insertAttempts = [] ∧
      (ingest req o).2.persisted = []) ∧
    (hasSteps (jsToString (jsGet c "answer")) = true →
      ∀ c2, (ingest req o).1 ≠ .proTierViolation c2) := by
  have hing : ingest req o = pipeline req o t (detectTier t).1 det g := by
    simp only [ingest, h1]
    rw [if_neg h2, h3]
  constructor
  · intro hstep
    rw [hing]
    simp [pipeline, h4, h5, h6, h7, isStr, hstep, Response.statusCode]
  · intro hstep c2
    rw [hing]
    simp only [pipeline, h4, h5, h6, h7]
    simp only [isStr, hstep, Bool.not_true, Bool.and_false, Bool.false_and,
      Bool.and_true, Bool.true_and, if_false, Bool.false_eq_true, reduceIte]
    by_cases hcand : truthy (jsOr (jsGet c "harbour") (reqNameVal req)) = true
    · simp only [hcand, Bool.and_true, Bool.not_false]
      rcases hl : o.lookupHarbour (jsToString (jsOr (jsGet c "harbour") (reqNameVal req)))
          with _ | hid
      · simp [hl]
      · simp only [hl, reduceIte, Bool.not_false, Bool.true_and, ite_true]
        rcases hir : o.insertResult with _ | rid <;> simp [insertStage, hir]
    · simp only [Bool.not_eq_true] at hcand
      simp only [hcand, Bool.and_false, Bool.false_eq_true, if_false, reduceIte,
        Bool.true_and]
      rcases hir : o.insertResult with _ | rid <;> simp [insertStage, hir]

/-- Witness for `c4_amended` at the concrete steps-free record: the
guardrail rejects with 422, logs medium, parks nothing and inserts
nothing. -/
theorem c4_amended_witness :
    (ingest c4wReq c4wO).1 = .proTierViolation qnaNoSteps ∧
    (ingest c4wReq c4wO).1.statusCode = 422 ∧
    (ingest c4wReq c4wO).2.logs =
      [⟨"medium", "Pro Tier Format Violation", "tier_validation",
        .obj [("tier", .str "pro"), ("issue", .str "missing_numbered_steps")],
        "QUESTION: Kioni stern-to. ANSWER: Just reverse in.", qnaNoSteps, false⟩] ∧
    (ingest c4wReq c4wO).2.queue = [] ∧
    (ingest c4wReq c4wO).2.insertAttempts = [] ∧
    (ingest c4wReq c4wO).2.persisted = [] :=
  (c4_amended c4wReq c4wO "QUESTION: Kioni stern-to. ANSWER: Just reverse in."
      ⟨.str "harbour_questions", some (99/100), "keyword", .undefined⟩ false qnaNoSteps
      rfl (by decide) (by rfl) (by rfl) rfl (by rfl) (by rfl)).1 (by rfl)

/-- Claim C5: whenever schema validation of a cleaned record fails, the
handler inserts a review-queue entry with status `needs_review`, appends a
high-severity error-log entry carrying the full violation list and the
original transcript, and answers 422; nothing is inserted into a primary
table and the failure is never silently dropped. -/
theorem c5_schema_failure_parked_and_logged (req : Request) (o : Oracles)
    (t : String) (det : Detection) (g : Bool) (tt : Table) (c : JsVal)
    (e : String) (es : List String)
    (h1 : req.transcript = some t) (h2 : jsTrim t ≠ "")
    (h3 : classifyStep t (detectTier t).2 o = .proceed det g)
    (h4 : tableOf (jsToString det.table) = some tt)
    (h5 : o.cleanerParsed = some c)
    (h6 : validateFor tt c = e :: es) :
    (ingest req o).1 = .validationFailed (tableName tt) (e :: es) c o.queueId ∧
    (ingest req o).1.statusCode = 422 ∧
    (ingest req o).2.queue =
      [⟨t, "Schema validation failed", "schema_validation",
        .arr ((e :: es).map .str), "needs_review"⟩] ∧
    (ingest req o).2.logs =
      [⟨"high", "Schema Validation Failed", "schema_validation",
        .obj [("errors", .arr ((e :: es).map .str)), ("table", .str (tableName tt))],
        t, c, false⟩] ∧
    (ingest req o).2.insertAttempts = [] ∧
    (ingest req o).2.persisted = [] := by
  have hing : ingest req o = pipeline req o t (detectTier t).1 det g := by
    simp only [ingest, h1]
    rw [if_neg h2, h3]
  rw [hing]
  simp [pipeline, h4, h5, h6, Response.statusCode]

/-- Witness for `c5_schema_failure_parked_and_logged`: the keyword-routed
Q&A request whose cleaner reply is `{"harbour": 5}` is parked and logged
with the six concrete violations before the 422. -/
theorem c5_witness :
    (ingest c5req c5o).1 =
      .validationFailed "harbour_questions"
        ["harbour must be a string", "question is required", "answer is required",
         "category is required", "tags is required", "tier is required"]
        badQna "rq-1" ∧
    (ingest c5req c5o).1.statusCode = 422 ∧
    (ingest c5req c5o).2.queue =
      [⟨keywordTranscript, "Schema validation failed", "schema_validation",
        .arr ((["harbour must be a string", "question is required",
                "answer is required", "category is required", "tags is required",
                "tier is required"] : List String).map .str), "needs_review"⟩] ∧
    (ingest c5req c5o).2.logs =
      [⟨"high", "Schema Validation Failed", "schema_validation",
        .obj [("errors", .arr ((["harbour must be a string", "question is required",
                "answer is required", "category is required", "tags is required",
                "tier is required"] : List String).map .str)),
              ("table", .str "harbour_questions")],
        keywordTranscript, badQna, false⟩] ∧
    (ingest c5req c5o).2.insertAttempts = [] ∧
    (ingest c5req c5o).2.persisted = [] :=
  c5_schema_failure_parked_and_logged c5req c5o keywordTranscript
    ⟨.str "harbour_questions", some (99/100), "keyword", .undefined⟩ false
    Table.harbour_questions badQna
    "harbour must be a string"
    ["question is required", "answer is required", "category is required",
     "tags is required", "tier is required"]
    rfl (by decide) (by rfl) (by rfl) rfl (by rfl)

/-- Claim C6 counterexample: on the transcript with the explicit
`TIER: FREE` directive, the tier extractor yields `free`, yet the run
persists a record whose tier is `pro` — the Cleaner's output tier — with a
200: the handler splices the extracted tier into the cleaning instruction
but never forces it into the Cleaner's output. -/
theorem c6_counterexample :
    (detectTier c6transcript).1 = "free" ∧
    jsGet qnaProTier "tier" = JsVal.str "pro" ∧
    (ingest c6req c6o).2.persisted =
      [("harbour_questions", "q-9",
        transformToDbColumns Table.harbour_questions qnaProTier (some "h-1"))] ∧
    jsGet (transformToDbColumns Table.harbour_questions qnaProTier (some "h-1"))
      "tier" = JsVal.str "pro" ∧
    (ingest c6req c6o).1.statusCode = 200 :=
  ⟨by rfl, by rfl, by rfl, by rfl, by rfl⟩

/-- Claim C6 amended: the extracted tier always lies in the closed
lowercase set (`pro` being the default), and the pipeline passes the
Cleaner's own tier through to the inserted payload — the transformer trims
it and defaults a falsy tier to `pro` (Q&A) or `free` (media) — rather
than overwriting it with the extracted tier. -/
theorem c6_amended :
    (∀ t : String, (detectTier t).1 = "free" ∨ (detectTier t).1 = "pro" ∨
      (detectTier t).1 = "exclusive") ∧
    (∀ (req : Request) (o : Oracles) (t : String) (det : Detection) (g : Bool)
       (c : JsVal) (hid : String),
      req.transcript = some t → jsTrim t ≠ "" →
      classifyStep t (detectTier t).2 o = .proceed det g →
      tableOf (jsToString det.table) = some Table.harbour_questions →
      o.cleanerParsed = some c →
      validateFor Table.harbour_questions c = [] →
      (isStr (jsGet c "tier") "pro" && !hasSteps (jsToString (jsGet c "answer"))) = false →
      (isStr (jsGet c "tier") "free" &&
        decide (2 < sentenceCount (jsToString (jsGet c "answer")))) = false →
      truthy (jsOr (jsGet c "harbour") (reqNameVal req)) = true →
      o.lookupHarbour (jsToString (jsOr (jsGet c "harbour") (reqNameVal req))) = some hid →
      ∃ p, (ingest req o).2.insertAttempts = [("harbour_questions", p)] ∧
        jsGet p "tier" = jsOr (sJs (jsGet c "tier")) (.str "pro")) ∧
    (∀ (req : Request) (o : Oracles) (t : String) (det : Detection) (g : Bool)
       (c : JsVal) (hid : String),
      req.transcript = some t → jsTrim t ≠ "" →
      classifyStep t (detectTier t).2 o = .proceed det g →
      tableOf (jsToString det.table) = some Table.harbour_media →
      o.cleanerParsed = some c →
      validateFor Table.harbour_media c = [] →
      truthy (jsOr (jsGet c "harbour_name") (reqNameVal req)) = true →
      o.lookupHarbour (jsToString (jsOr (jsGet c "harbour_name") (reqNameVal req))) = some hid →
      ∃ p, (ingest req o).2.insertAttempts = [("harbour_media", p)] ∧
        jsGet p "tier" = jsOr (sJs (jsGet c "tier")) (.str "free")) := by
  refine ⟨?_, ?_, ?_⟩
  · intro t
    unfold detectTier
    by_cases h : ciHasPrefixOf "TIER:".data t.data = true
    · simp only [h, if_true]
      rcases hk : tierKeyword ((t.data.drop 5).dropWhile jsWhitespace) with _ | ⟨tier, after⟩
      · simp [hk]
      · simp only [hk]
        unfold tierKeyword at hk
        split_ifs at hk <;> simp_all
    · simp only [Bool.not_eq_true] at h
      simp [h]
  · intro req o t det g c hid h1 h2 h3 h4 h5 h6 hg1 hg2 hcand hl
    have hing : ingest req o = pipeline req o t (detectTier t).1 det g := by
      simp only [ingest, h1]
      rw [if_neg h2, h3]
    rw [hing]
    simp only [pipeline, h4, h5, h6]
    simp only [reduceIte, decide_True, decide_False, Bool.true_and,
      Bool.not_false]
    simp only [hg1, hg2, Bool.false_eq_true, if_false]
    simp only [hcand, hl, Bool.and_true]
    rcases hr : req.row_id with _ | rid
    · rcases hir : o.insertResult with _ | iid <;>
        exact ⟨transformToDbColumns Table.harbour_questions c (some hid),
          by simp [insertStage, hir, hr, tableName],
          by simp [transformToDbColumns, jsGet, lookupField]⟩
    · by_cases hrid : rid = ""
      · rcases hir : o.insertResult with _ | iid <;>
          exact ⟨transformToDbColumns Table.harbour_questions c (some hid),
            by simp [insertStage, hir, hr, hrid, tableName],
            by simp [transformToDbColumns, jsGet, lookupField]⟩
      · rcases hir : o.insertResult with _ | iid <;>
          exact ⟨objSet (transformToDbColumns Table.harbour_questions c (some hid))
              "source" (.str rid),
            by simp [insertStage, hir, hr, hrid, tableName],
            by simp [transformToDbColumns, jsGet, lookupField, objSet, setField]⟩
  · intro req o t det g c hid h1 h2 h3 h4 h5 h6 hcand hl
    have hing : ingest req o = pipeline req o t (detectTier t).1 det g := by
      simp only [ingest, h1]
      rw [if_neg h2, h3]
    rw [hing]
    simp only [pipeline, h4, h5, h6]
    simp only [reduceIte, reduceCtorEq, decide_False, Bool.false_and,
      Bool.false_eq_true, if_false, Bool.not_false, Bool.true_and]
    simp only [hcand, hl]
    rcases hir : o.insertResult with _ | iid <;>
      exact ⟨transformToDbColumns Table.harbour_media c (some hid),
        by simp [insertStage, hir, tableName],
        by simp [transformToDbColumns, jsGet, lookupField]⟩

/-- Witness for `c6_amended` at the `TIER: FREE` run: the inserted Q&A
payload's tier is the Cleaner's trimmed tier. -/
theorem c6_amended_witness :
    ∃ p, (ingest c6req c6o).2.insertAttempts = [("harbour_questions", p)] ∧
      jsGet p "tier" = jsOr (sJs (jsGet qnaProTier "tier")) (.str "pro") :=
  c6_amended.2.1 c6req c6o c6transcript
    ⟨.str "harbour_questions", some (99/100), "keyword", .undefined⟩ false qnaProTier "h-1"
    rfl (by decide) (by rfl) (by rfl) rfl (by rfl) (by rfl) (by rfl) (by rfl) (by rfl)

/-- String coercion of a JS string is the string itself. -/
theorem jsToString_str (s : String) : jsToString (JsVal.str s) = s := rfl

/-- Claim C7: for a Q&A record that reaches the guardrail with tier `free`
and a string answer, the handler rejects with 422 exactly when
`sentenceCount` of the answer exceeds 2 — the count being the number of
occurrences of sentence-terminal punctuation followed by whitespace in the
trimmed answer, plus one if the trimmed answer ends with such
punctuation — logging at medium severity with no review-queue entry and no
insert; an answer counting at most 2 sentences passes the guardrail. -/
theorem c7_free_tier_sentence_gate (req : Request) (o : Oracles) (t : String)
    (det : Detection) (g : Bool) (c : JsVal) (a : String)
    (h1 : req.transcript = some t) (h2 : jsTrim t ≠ "")
    (h3 : classifyStep t (detectTier t).2 o = .proceed det g)
    (h4 : tableOf (jsToString det.table) = some Table.harbour_questions)
    (h5 : o.cleanerParsed = some c)
    (h6 : validateFor Table.harbour_questions c = [])
    (h7 : jsGet c "tier" = JsVal.str "free")
    (h8 : jsGet c "answer" = JsVal.str a) :
    (2 < sentenceCount a →
      (ingest req o).1 = .freeTierViolation (sentenceCount a) c ∧
      (ingest req o).1.statusCode = 422 ∧
      (ingest req o).2.logs =
        [⟨"medium", "Free Tier Length Violation", "tier_validation",
          .obj [("tier", .str "free"), ("sentence_count", .num (sentenceCount a)),
                ("max_allowed", .num 2)], t, c, false⟩] ∧
      (ingest req o).2.queue = [] ∧
      (ingest req o).2.insertAttempts = [] ∧
      (ingest req o).2.persisted = []) ∧
    (sentenceCount a ≤ 2 →
      ∀ n c2, (ingest req o).1 ≠ .freeTierViolation n c2) := by
  have hing : ingest req o = pipeline req o t (detectTier t).1 det g := by
    simp only [ingest, h1]
    rw [if_neg h2, h3]
  constructor
  · intro hcount
    rw [hing]
    simp [pipeline, h4, h5, h6, h7, h8, isStr, hcount, Response.statusCode,
      jsToString_str]
  · intro hcount n c2
    rw [hing]
    simp only [pipeline, h4, h5, h6, h7, h8]
    simp only [isStr, jsToString_str, reduceIte, reduceCtorEq,
      decide_True, Bool.true_and, Bool.and_false, Bool.false_and,
      Bool.false_eq_true, if_false, Bool.not_false]
    have hc2 : decide (2 < sentenceCount a) = false := by
      simpa using Nat.not_lt.mpr hcount
    simp only [hc2, Bool.and_false, Bool.false_eq_true, if_false]
    by_cases hcand : truthy (jsOr (jsGet c "harbour") (reqNameVal req)) = true
    · simp only [hcand, Bool.and_true, Bool.true_and]
      rcases hl : o.lookupHarbour (jsToString (jsOr (jsGet c "harbour") (reqNameVal req)))
          with _ | hid
      · simp [hl]
      · simp only [hl, reduceIte, ite_true]
        rcases hir : o.insertResult with _ | rid <;> simp [insertStage, hir]
    · simp only [Bool.not_eq_true] at hcand
      simp only [hcand, Bool.and_false, Bool.false_eq_true, if_false]
      rcases hir : o.insertResult with _ | rid <;> simp [insertStage, hir]

/-- Witness for `c7_free_tier_sentence_gate`: the three-sentence free-tier
answer is rejected with 422 and a medium log, nothing parked, nothing
inserted. -/
theorem c7_witness :
    (ingest c7req c7o).1 = .freeTierViolation 3 qnaFreeLong ∧
    (ingest c7req c7o).1.statusCode = 422 ∧
    (ingest c7req c7o).2.logs =
      [⟨"medium", "Free Tier Length Violation", "tier_validation",
        .obj [("tier", .str "free"), ("sentence_count", .num 3), ("max_allowed", .num 2)],
        "QUESTION: Where is water? ANSWER: One. Two. Three.", qnaFreeLong, false⟩] ∧
    (ingest c7req c7o).2.queue = [] ∧
    (ingest c7req c7o).2.insertAttempts = [] ∧
    (ingest c7req c7o).2.persisted = [] :=
  (c7_free_tier_sentence_gate c7req c7o
      "QUESTION: Where is water? ANSWER: One. Two. Three."
      ⟨.str "harbour_questions", some (99/100), "keyword", .undefined⟩ false
      qnaFreeLong "One. Two. Three."
      rfl (by decide) (by rfl) (by rfl) rfl (by rfl) (by rfl) (by rfl)).1 (by decide)

/-- The insert stage never invokes the GPT classifier. -/
theorem insertStage_gptCalled (req : Request) (o : Oracles) (t : String)
    (tt : Table) (c : JsVal) (det : Detection) (g : Bool) (hid : Option String) :
    (insertStage req o t tt c det g hid).2.gptCalled = g := by
  unfold insertStage
  rcases hir : o.insertResult with _ | rid <;> simp [hir]

/-- The post-classification pipeline never invokes the GPT classifier. -/
theorem pipeline_gptCalled (req : Request) (o : Oracles) (t dt : String)
    (det : Detection) (g : Bool) :
    (pipeline req o t dt det g).2.gptCalled = g := by
  unfold pipeline
  repeat' split
  all_goals try simp only []
  all_goals repeat' split
  all_goals first
    | rfl
    | apply insertStage_gptCalled

/-- Claim C8: a transcript with none of the three strict prefixes in which
the word-boundary tokens `question` and `answer` both occur anywhere
(any case, any order) classifies to harbour_questions with confidence 0.99
and method `keyword`; and whenever prefix/keyword detection succeeds, the
whole run never invokes the fallback collaborator. -/
theorem c8_keyword_cooccurrence :
    (∀ t : String,
      startsWithStr (jsToUpper (jsTrim t)) "HARBOUR:" = false →
      startsWithStr (jsToUpper (jsTrim t)) "WEATHER:" = false →
      startsWithStr (jsToUpper (jsTrim t)) "MEDIA:" = false →
      hasToken t "QUESTION" = true → hasToken t "ANSWER" = true →
      detectTableType t =
        some ⟨.str "harbour_questions", some (99/100), "keyword", .undefined⟩) ∧
    (∀ (req : Request) (o : Oracles) (t : String) (det : Detection),
      req.transcript = some t → jsTrim t ≠ "" →
      detectTableType (detectTier t).2 = some det →
      (ingest req o).2.gptCalled = false) := by
  constructor
  · intro t hp1 hp2 hp3 hq ha
    simp [detectTableType, hp1, hp2, hp3, hq, ha]
  · intro req o t det h1 h2 hdet
    have hcs : classifyStep t (detectTier t).2 o = .proceed det false := by
      unfold classifyStep
      rw [hdet]
    simp only [ingest, h1]
    rw [if_neg h2, hcs]
    exact pipeline_gptCalled req o t (detectTier t).1 det false

/-- Witness for `c8_keyword_cooccurrence`: a transcript with both marker
tokens and no strict prefix classifies as keyword/0.99, and its run never
calls the fallback. -/
theorem c8_witness :
    detectTableType "Here is a question: depth? The answer: 5m." =
      some ⟨.str "harbour_questions", some (99/100), "keyword", .undefined⟩ ∧
    (ingest ⟨some "Here is a question: depth? The answer: 5m.", none, none⟩ c5o).2.gptCalled
      = false :=
  ⟨c8_keyword_cooccurrence.1 "Here is a question: depth? The answer: 5m."
      (by rfl) (by rfl) (by rfl) (by rfl) (by rfl),
   c8_keyword_cooccurrence.2 ⟨some "Here is a question: depth? The answer: 5m.", none, none⟩
      c5o "Here is a question: depth? The answer: 5m."
      ⟨.str "harbour_questions", some (99/100), "keyword", .undefined⟩
      rfl (by decide) (by rfl)⟩

/-- Claim C9: when the Cleaner's reply fails to parse as JSON the handler
answers 422 echoing the raw reply, appends one high-severity error-log
entry, creates no review-queue entry and performs no insert — unlike a
schema-validation failure, which is parked. -/
theorem c9_cleaner_parse_failure (req : Request) (o : Oracles) (t : String)
    (det : Detection) (g : Bool) (tt : Table)
    (h1 : req.transcript = some t) (h2 : jsTrim t ≠ "")
    (h3 : classifyStep t (detectTier t).2 o = .proceed det g)
    (h4 : tableOf (jsToString det.table) = some tt)
    (h5 : o.cleanerParsed = none) :
    (ingest req o).1 = .parseFailed o.cleanerRaw ∧
    (ingest req o).1.statusCode = 422 ∧
    (ingest req o).2.logs =
      [⟨"high", "JSON Parse Failed", "json_parse_error",
        .obj [("error", .str o.cleanerParseErrMsg),
              ("raw_response", .str o.cleanerRaw)], t, .null, false⟩] ∧
    (ingest req o).2.queue = [] ∧
    (ingest req o).2.insertAttempts = [] ∧
    (ingest req o).2.persisted = [] := by
  have hing : ingest req o = pipeline req o t (detectTier t).1 det g := by
    simp only [ingest, h1]
    rw [if_neg h2, h3]
  rw [hing]
  simp [pipeline, h4, h5, Response.statusCode]

/-- Witness for `c9_cleaner_parse_failure` at a concrete keyword-routed
run whose cleaner reply is not JSON. -/
theorem c9_witness :
    (ingest c9req c9o).1 = .parseFailed "not json at all" ∧
    (ingest c9req c9o).1.statusCode = 422 ∧
    (ingest c9req c9o).2.logs =
      [⟨"high", "JSON Parse Failed", "json_parse_error",
        .obj [("error", .str "Unexpected token"),
              ("raw_response", .str "not json at all")], keywordTranscript, .null, false⟩] ∧
    (ingest c9req c9o).2.queue = [] ∧
    (ingest c9req c9o).2.insertAttempts = [] ∧
    (ingest c9req c9o).2.persisted = [] :=
  c9_cleaner_parse_failure c9req c9o keywordTranscript
    ⟨.str "harbour_questions", some (99/100), "keyword", .undefined⟩ false
    Table.harbour_questions rfl (by decide) (by rfl) (by rfl) rfl

/-- Claim C10: the low-confidence gate of the fallback path fires exactly
when the parsed confidence is a genuine number below 0.90 — a reply whose
confidence is absent or non-numeric parses to NaN, every `<` comparison
with NaN is false, so such a request proceeds to cleaning (and can be
persisted, with the NaN confidence echoed in the 200 response). -/
theorem c10_nan_confidence_gate :
    (∀ (t working : String) (o : Oracles) (v : JsVal),
      detectTableType working = none → o.gptParsed = some v →
      jsParseFloat (jsGet v "confidence") = none →
      classifyStep t working o =
        .proceed ⟨jsGet v "table", none, "gpt", jsGet v "reasoning"⟩ true) ∧
    (∀ (t working : String) (o : Oracles) (v : JsVal) (r : Response) (e : Effects),
      detectTableType working = none → o.gptParsed = some v →
      classifyStep t working o = .rejected r e →
      ∃ q, jsParseFloat (jsGet v "confidence") = some q ∧ q < 9/10) ∧
    ((ingest c10req c10o).1 =
      .ok "harbour_questions" "q-10" none "gpt" (some "h-1") false qnaGood
        (transformToDbColumns Table.harbour_questions qnaGood (some "h-1")) ∧
     (ingest c10req c10o).2.persisted =
      [("harbour_questions", "q-10",
        transformToDbColumns Table.harbour_questions qnaGood (some "h-1"))]) := by
  refine ⟨?_, ?_, by rfl, by rfl⟩
  · intro t working o v hdet hgpt hnan
    simp [classifyStep, hdet, hgpt, hnan, jsLtNum]
  · intro t working o v r e hdet hgpt hrej
    simp only [classifyStep, hdet, hgpt] at hrej
    rcases hq : jsParseFloat (jsGet v "confidence") with _ | q
    · rw [hq] at hrej
      simp [jsLtNum] at hrej
    · rw [hq] at hrej
      by_cases hlt : q < 9/10
      · exact ⟨q, rfl, hlt⟩
      · have : jsLtNum (some q) (9/10) = false := by simpa [jsLtNum] using hlt
        rw [this] at hrej
        simp at hrej

/-- Witness for `c10_nan_confidence_gate`: a fallback reply with no
confidence field proceeds past the gate as NaN. -/
theorem c10_witness :
    classifyStep "Tell me about the place." "Tell me about the place." c10o =
      .proceed ⟨.str "harbour_questions", none, "gpt",
        .str "looks like a question and answer"⟩ true :=
  c10_nan_confidence_gate.1 "Tell me about the place." "Tell me about the place."
    c10o gptNoConfReply (by rfl) rfl (by rfl)
